import Mathlib

/-!
Verification of a sample of the qiskit-terra transpiler core against its
specification.  The sampled source files are:

* `qiskit/extensions/standard/cy.py`  — controlled-Y gate (legacy-era API),
* `qiskit/extensions/standard/z.py`   — Pauli-Z gate (legacy-era API),
* `qiskit/extensions/standard/iswap.py` — iSWAP gate (modern-era API),
* `qiskit/transpiler/passes/deepest_path.py` — the DeepestPath analysis pass.

The surrounding infrastructure (wire checks, the generic append entry point,
the pass framework and property set, `longest_path`) is not part of the
sampled sources; where a claim depends on it, it is modelled from the spec
(§4.1–§4.3, §7) and marked `Modelled from the spec:` in its doc comment.
-/

namespace Qiskit

/-- Error taxonomy of spec §7 (the part the sampled code can raise). -/
inductive Err where
  | UnknownWireError
  | DuplicateWireArgumentError
  | ArityMismatchError
  | MissingPropertyError
deriving DecidableEq, Repr

/-- A quantum register: a name and a size (`sz` in the legacy source,
`size` in the modern source; `QuantumRegister(2, 'q')` takes size first). -/
structure QuantumRegister where
  name : String
  sz : Nat
deriving DecidableEq, Repr

/-- A qubit argument: the pair `(register, index)` used throughout the
sampled sources (`(q, j)` tuples in z.py, `q[0]` indexing in iswap.py). -/
structure Qubit where
  reg : QuantumRegister
  idx : Nat
deriving DecidableEq, Repr

/-- A classical bit argument (only ever passed as an empty list `[]` by the
sampled gates). -/
structure Clbit where
  reg : String
  idx : Nat
deriving DecidableEq, Repr

/-- A qubit `(r, j)` is a declared wire of a circuit owning registers `regs`
when its register is one of them and its index is within the register's
size (spec §3: uniqueness of wires is (register, index, kind); §4.1:
`resolve` fails with `UnknownWireError` otherwise). -/
def declaredIn (regs : List QuantumRegister) (q : Qubit) : Prop :=
  q.reg ∈ regs ∧ q.idx < q.reg.sz

instance (regs : List QuantumRegister) (q : Qubit) :
    Decidable (declaredIn regs q) := by
  unfold declaredIn; infer_instance

end Qiskit

namespace Qiskit.Legacy

/-!  Embedding of the legacy-era files cy.py and z.py.  A legacy `Gate`
carries a name, a parameter list and the list of bound qubit arguments
(`self.arg`), exactly the data `Gate.__init__` stores for these gates. -/

/-- Legacy gate object: `Gate(name, params, args, circ)` keeps the name,
the numeric parameter list and the bound arguments `arg`. -/
structure Gate where
  name : String
  params : List Int
  arg : List Qubit
deriving DecidableEq, Repr

/-- `CyGate.__init__(ctl, tgt, circ)` from cy.py:
`super().__init__("cy", [], [ctl, tgt], circ)`. -/
def CyGate (ctl tgt : Qubit) : Gate :=
  ⟨"cy", [], [ctl, tgt]⟩

/-- `ZGate.__init__(qubit, circ)` from z.py:
`super().__init__("z", [], [qubit], circ)`. -/
def ZGate (qubit : Qubit) : Gate :=
  ⟨"z", [], [qubit]⟩

/-- `CyGate.inverse` from cy.py: `return self  # self-inverse`. -/
def CyGate.inverse (g : Gate) : Gate := g

/-- `ZGate.inverse` from z.py: `return self  # self-inverse`. -/
def ZGate.inverse (g : Gate) : Gate := g

/-- Legacy circuit state: the declared quantum registers and the ordered
list of attached gates. -/
structure QuantumCircuit where
  qregs : List QuantumRegister
  data : List Gate
deriving DecidableEq, Repr

/-- Modelled from the spec: `QuantumCircuit._check_qubit` is not among the
sampled sources; per §4.1/§4.2 an argument wire that was not declared
fails with `UnknownWireError`. -/
def QuantumCircuit.checkQubit (c : QuantumCircuit) (q : Qubit) :
    Except Err Unit :=
  if declaredIn c.qregs q then .ok () else .error .UnknownWireError

/-- Modelled from the spec: `QuantumCircuit._check_dups` is not among the
sampled sources; per §4.2 a wire appearing twice among the qubit arguments
of one application fails with `DuplicateWireArgumentError`. -/
def QuantumCircuit.checkDups (_c : QuantumCircuit) (qubits : List Qubit) :
    Except Err Unit :=
  if qubits.Nodup then .ok () else .error .DuplicateWireArgumentError

/-- Modelled from the spec: `QuantumCircuit._attach` is not among the
sampled sources; per §4.2 a successful application appends the new
operation at the current end of the circuit and returns it (the generic
attach entry point of the circuit builder). -/
def QuantumCircuit.attach (c : QuantumCircuit) (g : Gate) :
    Gate × QuantumCircuit :=
  (g, ⟨c.qregs, c.data ++ [g]⟩)

/-- `cy(self, ctl, tgt)` from cy.py: check both qubits, check duplicates,
then attach a fresh `CyGate`. -/
def QuantumCircuit.cy (c : QuantumCircuit) (ctl tgt : Qubit) :
    Except Err (Gate × QuantumCircuit) := do
  c.checkQubit ctl
  c.checkQubit tgt
  c.checkDups [ctl, tgt]
  return c.attach (CyGate ctl tgt)

/-- The value a legacy `z` call returns: a single attached gate for a
single-qubit argument, an `InstructionSet` collecting the attached gates
for a whole-register argument. -/
inductive ZResult where
  | single (g : Gate)
  | instructionSet (gs : List Gate)
deriving DecidableEq, Repr

/-- The argument of `z(self, q)`: either a whole `QuantumRegister` or a
single qubit (the `isinstance(q, QuantumRegister)` test in z.py). -/
inductive ZArg where
  | reg (r : QuantumRegister)
  | bit (q : Qubit)
deriving DecidableEq, Repr

/-- The single-qubit branch of `z` in z.py:
`self._check_qubit(q); return self._attach(ZGate(q, self))`. -/
def QuantumCircuit.zBit (c : QuantumCircuit) (q : Qubit) :
    Except Err (Gate × QuantumCircuit) := do
  c.checkQubit q
  return c.attach (ZGate q)

/-- The register branch of `z` in z.py: the loop
`for j in range(q.sz): gs.add(self.z((q, j)))`, threading the mutated
circuit through the iterations and collecting the attached gates in order. -/
def zRegAux (c : QuantumCircuit) (r : QuantumRegister) :
    List Nat → Except Err (List Gate × QuantumCircuit)
  | [] => .ok ([], c)
  | j :: js => do
      let (g, c1) ← c.zBit ⟨r, j⟩
      let (gs, c2) ← zRegAux c1 r js
      return (g :: gs, c2)

/-- `z(self, q)` from z.py: on a whole register, apply `z` to `(q, j)` for
each `j` in `range(q.sz)` and return an `InstructionSet` of the gates;
on a single qubit, check it and attach one `ZGate`. -/
def QuantumCircuit.z (c : QuantumCircuit) :
    ZArg → Except Err (ZResult × QuantumCircuit)
  | .reg r => do
      let (gs, c1) ← zRegAux c r (List.range r.sz)
      return (.instructionSet gs, c1)
  | .bit q => do
      let (g, c1) ← c.zBit q
      return (.single g, c1)

end Qiskit.Legacy

namespace Qiskit.Modern

/-!  Embedding of the modern-era file iswap.py.  A modern `Gate` is an
operation descriptor: `Gate.__init__(name, num_qubits, params)` — spec §3's
Operation Descriptor (name, parameters, arity). -/

/-- Modern gate descriptor: `Gate(name, num_qubits, params)`. -/
structure Gate where
  name : String
  num_qubits : Nat
  params : List Int
deriving DecidableEq, Repr

/-- An instruction as stored in a circuit or a gate definition: the
(descriptor, qubit-args, clbit-args) triple of spec §3. -/
abbrev Instruction : Type := Gate × List Qubit × List Clbit

/-- `iSwapGate.__init__` from iswap.py: `super().__init__('iswap', 2, [])`. -/
def iSwapGate : Gate := ⟨"iswap", 2, []⟩

/-- Modelled from the spec: `SGate` (qiskit/extensions/standard/s.py) is not
among the sampled sources; a 1-qubit operation descriptor named "s" with no
parameters (§6: gate semantics are external, the core only stores the
descriptor). -/
def SGate : Gate := ⟨"s", 1, []⟩

/-- Modelled from the spec: `HGate` (qiskit/extensions/standard/h.py) is not
among the sampled sources; a 1-qubit operation descriptor named "h" with no
parameters. -/
def HGate : Gate := ⟨"h", 1, []⟩

/-- Modelled from the spec: `CXGate` (qiskit/extensions/standard/x.py) is
not among the sampled sources; a 2-qubit operation descriptor named "cx"
with no parameters. -/
def CXGate : Gate := ⟨"cx", 2, []⟩

/-- `iSwapGate._define` from iswap.py: over a fresh 2-qubit register
`QuantumRegister(2, 'q')`, the ordered decomposition
`s q[0]; s q[1]; h q[0]; cx q[0],q[1]; cx q[1],q[0]; h q[1]`. -/
def iSwapGate.definition : List Instruction :=
  let q : QuantumRegister := ⟨"q", 2⟩
  [ (SGate, [⟨q, 0⟩], []),
    (SGate, [⟨q, 1⟩], []),
    (HGate, [⟨q, 0⟩], []),
    (CXGate, [⟨q, 0⟩, ⟨q, 1⟩], []),
    (CXGate, [⟨q, 1⟩, ⟨q, 0⟩], []),
    (HGate, [⟨q, 1⟩], []) ]

/-- A Gaussian integer: exact complex number `re + im * i`, for the matrix
entries of `to_matrix` (the numpy literals `0`, `1`, `1j` are all exactly
representable). -/
structure GaussianInt where
  re : Int
  im : Int
deriving DecidableEq, Repr

/-- `iSwapGate.to_matrix` from iswap.py: the 4x4 array
`[[1,0,0,0],[0,0,1j,0],[0,1j,0,0],[0,0,0,1]]`. -/
def iSwapGate.to_matrix : List (List GaussianInt) :=
  [ [⟨1, 0⟩, ⟨0, 0⟩, ⟨0, 0⟩, ⟨0, 0⟩],
    [⟨0, 0⟩, ⟨0, 0⟩, ⟨0, 1⟩, ⟨0, 0⟩],
    [⟨0, 0⟩, ⟨0, 1⟩, ⟨0, 0⟩, ⟨0, 0⟩],
    [⟨0, 0⟩, ⟨0, 0⟩, ⟨0, 0⟩, ⟨1, 0⟩] ]

/-- Modern circuit state: declared quantum registers and the ordered list of
appended instructions. -/
structure QuantumCircuit where
  qregs : List QuantumRegister
  data : List Instruction
deriving DecidableEq, Repr

/-- Modelled from the spec: `QuantumCircuit.append` is not among the sampled
sources; it is the generic `apply_operation` entry point of §4.2 — fail
with `ArityMismatchError` if the argument count does not match the
descriptor's arity, with `UnknownWireError` if any argument wire was not
declared, with `DuplicateWireArgumentError` if a wire appears twice among
the qubit arguments; on success append the instruction at the current end
of the circuit and return it. -/
def QuantumCircuit.append (c : QuantumCircuit) (g : Gate)
    (qargs : List Qubit) (cargs : List Clbit) :
    Except Err (Instruction × QuantumCircuit) :=
  if qargs.length ≠ g.num_qubits then .error .ArityMismatchError
  else if ¬ (∀ q ∈ qargs, declaredIn c.qregs q) then .error .UnknownWireError
  else if ¬ qargs.Nodup then .error .DuplicateWireArgumentError
  else .ok ((g, qargs, cargs), ⟨c.qregs, c.data ++ [(g, qargs, cargs)]⟩)

/-- `iswap(self, qubit1, qubit2)` from iswap.py:
`return self.append(iSwapGate(), [qubit1, qubit2], [])`. -/
def QuantumCircuit.iswap (c : QuantumCircuit) (qubit1 qubit2 : Qubit) :
    Except Err (Instruction × QuantumCircuit) :=
  c.append iSwapGate [qubit1, qubit2] []

end Qiskit.Modern

namespace Qiskit.Transpiler

/-- A node of a `DAGCircuit` (spec §3): an input node or output node of a
wire, or an operation node holding a descriptor and its bound arguments. -/
inductive DAGNode where
  | input (w : Qubit)
  | output (w : Qubit)
  | op (g : Modern.Gate) (qargs : List Qubit) (cargs : List Clbit)
deriving DecidableEq, Repr

/-- Modelled from the spec: the `DAGCircuit` class and its `longest_path()`
query (spec §4.2) are not among the sampled sources.  The DeepestPath
claims only observe the query's result, so the DAG is abstracted to the
ordered node sequence `longest_path()` returns on it; the pass under
verification treats that result opaquely. -/
structure DAGCircuit where
  longest_path : List DAGNode
deriving DecidableEq, Repr

/-- A Property Set value (spec §9: a closed catalog of variant payload
types; the sampled pass only ever stores a node list). -/
inductive PValue where
  | nodeList (l : List DAGNode)
  | nat (n : Nat)
deriving DecidableEq, Repr

/-- Modelled from the spec: the Property Set (§3) — a mapping from property
name to value, keys created by whichever pass first writes them. -/
def PropertySet : Type := List (String × PValue)

instance : DecidableEq PropertySet := by
  unfold PropertySet; infer_instance

/-- Look a key up in the Property Set. -/
def PropertySet.get (ps : PropertySet) (k : String) : Option PValue :=
  (ps.find? (fun e => e.1 = k)).map (fun e => e.2)

/-- Write a key in the Property Set (`self.property_set[k] = v`):
the new binding shadows any previous one. -/
def PropertySet.set (ps : PropertySet) (k : String) (v : PValue) :
    PropertySet :=
  (k, v) :: ps

/-- `DeepestPath.run` from deepest_path.py:
`self.property_set['deepest_path'] = dag.longest_path()`; no `return`
statement, so the pass returns `None`.  The state it can touch is the
Property Set, threaded explicitly. -/
def DeepestPath.run (dag : DAGCircuit) (ps : PropertySet) :
    Option DAGCircuit × PropertySet :=
  (none, ps.set "deepest_path" (.nodeList dag.longest_path))

/-- `DeepestPath` declares no required properties: deepest_path.py overrides
nothing of the `AnalysisPass` base, whose `requires` list is empty
(spec §4.4: "requires nothing"). -/
def DeepestPath.requiresList : List String := []

/-- Modelled from the spec: the pre-execution check of §4.3 — verify the
pass's declared required properties exist in the Property Set, failing
with `MissingPropertyError` otherwise. -/
def checkRequired (required : List String) (ps : PropertySet) :
    Except Err Unit :=
  if required.all (fun k => (ps.get k).isSome) then .ok ()
  else .error .MissingPropertyError

/-- Modelled from the spec: the framework rule of §4.3 for one pass
execution — if the pass returns a replacement DAG it becomes the current
DAG, but for an analysis pass any returned DAG is discarded and only the
Property Set writes are retained. -/
def frameworkStep
    (runPass : DAGCircuit → PropertySet → Option DAGCircuit × PropertySet)
    (isAnalysis : Bool) (dag : DAGCircuit) (ps : PropertySet) :
    DAGCircuit × PropertySet :=
  let (ret, ps1) := runPass dag ps
  (if isAnalysis then dag else ret.getD dag, ps1)

end Qiskit.Transpiler

namespace Qiskit

instance {ε α : Type} [DecidableEq ε] [DecidableEq α] :
    DecidableEq (Except ε α) := fun x y =>
  match x, y with
  | .error a, .error b => decidable_of_iff (a = b) (by simp)
  | .error _, .ok _ => .isFalse (fun h => Except.noConfusion h)
  | .ok _, .error _ => .isFalse (fun h => Except.noConfusion h)
  | .ok a, .ok b => decidable_of_iff (a = b) (by simp)

/-- Reduction of `Except` bind on a success value. -/
theorem exbind_ok {ε α β : Type} (a : α) (f : α → Except ε β) :
    (Except.ok a >>= f) = f a := rfl

/-- Reduction of `Except` bind on an error value. -/
theorem exbind_error {ε α β : Type} (e : ε) (f : α → Except ε β) :
    ((Except.error e : Except ε α) >>= f) = Except.error e := rfl

/-!  ## Claims -/

/-- C1: for every DAG, running the DeepestPath analysis pass writes the
Property Set key "deepest_path" and its value is exactly the ordered
sequence of operation nodes returned by the DAG's `longest_path()` — the
pass stores the result unaltered. -/
theorem C1_deepest_path_stores_longest_path
    (dag : Transpiler.DAGCircuit) (ps : Transpiler.PropertySet) :
    ((Transpiler.DeepestPath.run dag ps).2).get "deepest_path" =
      some (.nodeList dag.longest_path) := by
  rfl

/-- C2: `DeepestPath.run` is read-only with respect to the DAG: it returns
no replacement DAG (`none`), so under the framework rule for analysis
passes the current DAG after the pass is the DAG from before; and its only
effect is the single Property Set write at key "deepest_path" — every
other key reads as before. -/
theorem C2_deepest_path_readonly
    (dag : Transpiler.DAGCircuit) (ps : Transpiler.PropertySet) :
    (Transpiler.DeepestPath.run dag ps).1 = none ∧
    Transpiler.frameworkStep Transpiler.DeepestPath.run true dag ps =
      (dag, (Transpiler.DeepestPath.run dag ps).2) ∧
    (Transpiler.DeepestPath.run dag ps).2 =
      ps.set "deepest_path" (.nodeList dag.longest_path) ∧
    ∀ k, k ≠ "deepest_path" →
      ((Transpiler.DeepestPath.run dag ps).2).get k = ps.get k := by
  refine ⟨rfl, rfl, rfl, ?_⟩
  intro k hk
  simp [Transpiler.DeepestPath.run, Transpiler.PropertySet.set,
        Transpiler.PropertySet.get, List.find?, Ne.symm hk]

/-- C2 witness: on a concrete DAG and a concrete one-entry Property Set,
the pass returns no DAG, the framework keeps the DAG, and the other key
is untouched. -/
theorem C2_deepest_path_readonly_witness :
    ((Transpiler.DeepestPath.run ⟨[]⟩ [("depth", .nat 3)]).2).get "depth" =
      Transpiler.PropertySet.get [("depth", .nat 3)] "depth" :=
  (C2_deepest_path_readonly ⟨[]⟩ [("depth", .nat 3)]).2.2.2 "depth" (by decide)

/-- C3 counterexample: the claim quantifies over every circuit and every
qubit, but on a circuit where the duplicated qubit is not a declared wire,
both `cy(q, q)` and `iswap(q, q)` fail with `UnknownWireError` (the
unknown-wire check runs before the duplicate check), not with
`DuplicateWireArgumentError`. -/
theorem C3_dup_wire_counterexample :
    Legacy.QuantumCircuit.cy ⟨[], []⟩ ⟨⟨"q", 1⟩, 0⟩ ⟨⟨"q", 1⟩, 0⟩ =
      .error .UnknownWireError ∧
    Modern.QuantumCircuit.iswap ⟨[], []⟩ ⟨⟨"q", 1⟩, 0⟩ ⟨⟨"q", 1⟩, 0⟩ =
      .error .UnknownWireError ∧
    ¬ (Legacy.QuantumCircuit.cy ⟨[], []⟩ ⟨⟨"q", 1⟩, 0⟩ ⟨⟨"q", 1⟩, 0⟩ =
        .error .DuplicateWireArgumentError) ∧
    ¬ (Modern.QuantumCircuit.iswap ⟨[], []⟩ ⟨⟨"q", 1⟩, 0⟩ ⟨⟨"q", 1⟩, 0⟩ =
        .error .DuplicateWireArgumentError) :=
  ⟨by decide, by decide, by decide, by decide⟩

/-- C3 (amended): for every circuit and every qubit q that is a declared
wire of the circuit, applying a 2-qubit gate with the same qubit given
twice in one call fails with `DuplicateWireArgumentError` and attaches no
gate, both for `cy(q, q)` and for `iswap(q, q)`. -/
theorem C3_dup_wire_rejected
    (cL : Legacy.QuantumCircuit) (cM : Modern.QuantumCircuit) (q : Qubit)
    (hL : declaredIn cL.qregs q) (hM : declaredIn cM.qregs q) :
    cL.cy q q = .error .DuplicateWireArgumentError ∧
    cM.iswap q q = .error .DuplicateWireArgumentError := by
  constructor
  · simp [Legacy.QuantumCircuit.cy, Legacy.QuantumCircuit.checkQubit,
          Legacy.QuantumCircuit.checkDups, hL, exbind_ok, exbind_error]
  · simp [Modern.QuantumCircuit.iswap, Modern.QuantumCircuit.append,
          Modern.iSwapGate, hM]

/-- C3 witness: on a circuit with one declared 1-qubit register, both
duplicate-wire calls are rejected with `DuplicateWireArgumentError`. -/
theorem C3_dup_wire_rejected_witness :
    Legacy.QuantumCircuit.cy ⟨[⟨"q", 1⟩], []⟩ ⟨⟨"q", 1⟩, 0⟩ ⟨⟨"q", 1⟩, 0⟩ =
      .error .DuplicateWireArgumentError ∧
    Modern.QuantumCircuit.iswap ⟨[⟨"q", 1⟩], []⟩ ⟨⟨"q", 1⟩, 0⟩ ⟨⟨"q", 1⟩, 0⟩ =
      .error .DuplicateWireArgumentError :=
  C3_dup_wire_rejected ⟨[⟨"q", 1⟩], []⟩ ⟨[⟨"q", 1⟩], []⟩ ⟨⟨"q", 1⟩, 0⟩
    (by decide) (by decide)

/-- C4: applying a gate with a qubit that was not declared as a wire of the
circuit fails with `UnknownWireError` before any gate is attached: `cy`
validates both ctl and tgt, and `z` validates its single-qubit argument;
the error result carries no circuit, so the circuit is unchanged. -/
theorem C4_unknown_wire_rejected
    (c : Legacy.QuantumCircuit) (ctl tgt q : Qubit)
    (h1 : ¬ declaredIn c.qregs ctl ∨ ¬ declaredIn c.qregs tgt)
    (h2 : ¬ declaredIn c.qregs q) :
    c.cy ctl tgt = .error .UnknownWireError ∧
    c.z (.bit q) = .error .UnknownWireError := by
  constructor
  · by_cases hc : declaredIn c.qregs ctl
    · have ht : ¬ declaredIn c.qregs tgt := h1.resolve_left (fun h => h hc)
      simp [Legacy.QuantumCircuit.cy, Legacy.QuantumCircuit.checkQubit, hc, ht,
            exbind_ok, exbind_error]
    · simp [Legacy.QuantumCircuit.cy, Legacy.QuantumCircuit.checkQubit, hc,
            exbind_ok, exbind_error]
  · simp [Legacy.QuantumCircuit.z, Legacy.QuantumCircuit.zBit,
          Legacy.QuantumCircuit.checkQubit, h2, exbind_ok, exbind_error]

/-- C4 witness: on a circuit with one declared register, a qubit of an
undeclared register is rejected by both `cy` (as tgt, with ctl declared)
and `z`. -/
theorem C4_unknown_wire_rejected_witness :
    Legacy.QuantumCircuit.cy ⟨[⟨"q", 2⟩], []⟩ ⟨⟨"q", 2⟩, 0⟩ ⟨⟨"r", 1⟩, 0⟩ =
      .error .UnknownWireError ∧
    Legacy.QuantumCircuit.z ⟨[⟨"q", 2⟩], []⟩ (.bit ⟨⟨"r", 1⟩, 0⟩) =
      .error .UnknownWireError :=
  C4_unknown_wire_rejected ⟨[⟨"q", 2⟩], []⟩ ⟨⟨"q", 2⟩, 0⟩ ⟨⟨"r", 1⟩, 0⟩
    ⟨⟨"r", 1⟩, 0⟩ (Or.inr (by decide)) (by decide)

/-- C5: the gate-specific convenience calls are thin layers over the one
generic entry point: `iswap(q1, q2)` is exactly
`append(iSwapGate(), [q1, q2], [])` for every circuit and qubits, and
`cy(ctl, tgt)`, once its argument checks succeed, is exactly the result
of attaching `CyGate(ctl, tgt, circ)` via the generic attach entry point —
no other behaviour is added. -/
theorem C5_convenience_is_thin_layer
    (cM : Modern.QuantumCircuit) (q1 q2 : Qubit)
    (cL : Legacy.QuantumCircuit) (ctl tgt : Qubit)
    (h1 : declaredIn cL.qregs ctl) (h2 : declaredIn cL.qregs tgt)
    (h3 : ctl ≠ tgt) :
    cM.iswap q1 q2 = cM.append Modern.iSwapGate [q1, q2] [] ∧
    cL.cy ctl tgt = .ok (cL.attach (Legacy.CyGate ctl tgt)) := by
  refine ⟨rfl, ?_⟩
  simp [Legacy.QuantumCircuit.cy, Legacy.QuantumCircuit.checkQubit,
        Legacy.QuantumCircuit.checkDups, h1, h2, h3, exbind_ok, exbind_error]

/-- C5 witness: on a concrete 2-qubit circuit, `iswap` agrees with the
generic append and `cy` is exactly one generic attach of a `CyGate`. -/
theorem C5_convenience_is_thin_layer_witness :
    Modern.QuantumCircuit.iswap ⟨[⟨"q", 2⟩], []⟩ ⟨⟨"q", 2⟩, 0⟩ ⟨⟨"q", 2⟩, 1⟩ =
      Modern.QuantumCircuit.append ⟨[⟨"q", 2⟩], []⟩ Modern.iSwapGate
        [⟨⟨"q", 2⟩, 0⟩, ⟨⟨"q", 2⟩, 1⟩] [] ∧
    Legacy.QuantumCircuit.cy ⟨[⟨"q", 2⟩], []⟩ ⟨⟨"q", 2⟩, 0⟩ ⟨⟨"q", 2⟩, 1⟩ =
      .ok (Legacy.QuantumCircuit.attach ⟨[⟨"q", 2⟩], []⟩
            (Legacy.CyGate ⟨⟨"q", 2⟩, 0⟩ ⟨⟨"q", 2⟩, 1⟩)) :=
  C5_convenience_is_thin_layer ⟨[⟨"q", 2⟩], []⟩ ⟨⟨"q", 2⟩, 0⟩ ⟨⟨"q", 2⟩, 1⟩
    ⟨[⟨"q", 2⟩], []⟩ ⟨⟨"q", 2⟩, 0⟩ ⟨⟨"q", 2⟩, 1⟩
    (by decide) (by decide) (by decide)

/-- C6: the iSWAP operation descriptor has name "iswap", required qubit
count 2 and an empty parameter list, and its nested definition is the
ordered sequence of exactly six (descriptor, qubit-args, clbit-args)
triples over a fresh 2-qubit register q:
(S,[q0],[]), (S,[q1],[]), (H,[q0],[]), (CX,[q0,q1],[]), (CX,[q1,q0],[]),
(H,[q1],[]), each with empty clbit-args. -/
theorem C6_iswap_descriptor_and_definition :
    Modern.iSwapGate.name = "iswap" ∧
    Modern.iSwapGate.num_qubits = 2 ∧
    Modern.iSwapGate.params = [] ∧
    Modern.iSwapGate.definition.length = 6 ∧
    Modern.iSwapGate.definition =
      [ (Modern.SGate, [⟨⟨"q", 2⟩, 0⟩], []),
        (Modern.SGate, [⟨⟨"q", 2⟩, 1⟩], []),
        (Modern.HGate, [⟨⟨"q", 2⟩, 0⟩], []),
        (Modern.CXGate, [⟨⟨"q", 2⟩, 0⟩, ⟨⟨"q", 2⟩, 1⟩], []),
        (Modern.CXGate, [⟨⟨"q", 2⟩, 1⟩, ⟨⟨"q", 2⟩, 0⟩], []),
        (Modern.HGate, [⟨⟨"q", 2⟩, 1⟩], []) ] ∧
    Modern.iSwapGate.definition.map (fun t => t.2.2) =
      [[], [], [], [], [], []] := by
  decide

/-- C7: DeepestPath declares no required properties, so the framework's
pre-execution required-property check succeeds for every state of the
Property Set — it can never fail with `MissingPropertyError`, and
DeepestPath may run first in any pass order (in particular on the empty
Property Set). -/
theorem C7_deepest_path_requires_nothing (ps : Transpiler.PropertySet) :
    Transpiler.DeepestPath.requiresList = [] ∧
    Transpiler.checkRequired Transpiler.DeepestPath.requiresList ps =
      .ok () :=
  ⟨rfl, rfl⟩

/-- C8: `CyGate.inverse` and `ZGate.inverse` each return the very same gate
unchanged (the gates are self-inverse), hence inverse is an involution and
leaves the gate's name, parameter list and bound arguments unmodified. -/
theorem C8_gates_self_inverse (g k : Legacy.Gate) :
    Legacy.CyGate.inverse g = g ∧
    Legacy.ZGate.inverse k = k ∧
    Legacy.CyGate.inverse (Legacy.CyGate.inverse g) = g ∧
    Legacy.ZGate.inverse (Legacy.ZGate.inverse k) = k ∧
    (Legacy.CyGate.inverse g).name = g.name ∧
    (Legacy.CyGate.inverse g).params = g.params ∧
    (Legacy.CyGate.inverse g).arg = g.arg ∧
    (Legacy.ZGate.inverse k).name = k.name ∧
    (Legacy.ZGate.inverse k).params = k.params ∧
    (Legacy.ZGate.inverse k).arg = k.arg :=
  ⟨rfl, rfl, rfl, rfl, rfl, rfl, rfl, rfl, rfl, rfl⟩

/-- Helper for C9: the register loop of `z` over a list of in-range indices
attaches one `ZGate` per index, in list order, threading the circuit. -/
theorem zRegAux_ok (c : Legacy.QuantumCircuit) (r : QuantumRegister)
    (js : List Nat) (hr : r ∈ c.qregs) (hjs : ∀ j ∈ js, j < r.sz) :
    Legacy.zRegAux c r js =
      .ok (js.map (fun j => Legacy.ZGate ⟨r, j⟩),
           ⟨c.qregs, c.data ++ js.map (fun j => Legacy.ZGate ⟨r, j⟩)⟩) := by
  induction js generalizing c with
  | nil => simp [Legacy.zRegAux]
  | cons j js ih =>
      have hj : j < r.sz := hjs j (by simp)
      have hd : declaredIn c.qregs ⟨r, j⟩ := ⟨hr, hj⟩
      have hstep : Legacy.QuantumCircuit.zBit c ⟨r, j⟩ =
          .ok (Legacy.ZGate ⟨r, j⟩,
               ⟨c.qregs, c.data ++ [Legacy.ZGate ⟨r, j⟩]⟩) := by
        simp [Legacy.QuantumCircuit.zBit, Legacy.QuantumCircuit.checkQubit,
              Legacy.QuantumCircuit.attach, hd, exbind_ok, exbind_error]
      have ih' := ih ⟨c.qregs, c.data ++ [Legacy.ZGate ⟨r, j⟩]⟩ hr
        (fun i hi => hjs i (by simp [hi]))
      simp [Legacy.zRegAux, hstep, ih', exbind_ok, exbind_error]

/-- C9: when `z` is called with a whole QuantumRegister r (declared in the
circuit), it applies one Z gate to each qubit (r, j) for j = 0 .. r.sz - 1
in increasing index order and returns an InstructionSet collecting those
gates; when called with a single declared qubit it attaches exactly one
ZGate to that qubit. -/
theorem C9_z_register_applies_each
    (c : Legacy.QuantumCircuit) (r : QuantumRegister) (q : Qubit)
    (hr : r ∈ c.qregs) (hq : declaredIn c.qregs q) :
    c.z (.reg r) =
      .ok (.instructionSet ((List.range r.sz).map fun j => Legacy.ZGate ⟨r, j⟩),
           ⟨c.qregs, c.data ++ (List.range r.sz).map fun j => Legacy.ZGate ⟨r, j⟩⟩) ∧
    c.z (.bit q) =
      .ok (.single (Legacy.ZGate q), ⟨c.qregs, c.data ++ [Legacy.ZGate q]⟩) := by
  constructor
  · have h := zRegAux_ok c r (List.range r.sz) hr
      (fun j hj => List.mem_range.mp hj)
    simp [Legacy.QuantumCircuit.z, h, exbind_ok, exbind_error]
  · simp [Legacy.QuantumCircuit.z, Legacy.QuantumCircuit.zBit,
          Legacy.QuantumCircuit.checkQubit, Legacy.QuantumCircuit.attach, hq,
          exbind_ok, exbind_error]

/-- C9 witness: on a circuit with a declared 2-qubit register, `z` on the
whole register attaches Z gates on indices 0 and 1 in order, and `z` on a
single qubit attaches exactly one ZGate. -/
theorem C9_z_register_applies_each_witness :
    Legacy.QuantumCircuit.z ⟨[⟨"q", 2⟩], []⟩ (.reg ⟨"q", 2⟩) =
      .ok (.instructionSet
            ((List.range 2).map fun j => Legacy.ZGate ⟨⟨"q", 2⟩, j⟩),
           ⟨[⟨"q", 2⟩], [] ++ (List.range 2).map fun j => Legacy.ZGate ⟨⟨"q", 2⟩, j⟩⟩) ∧
    Legacy.QuantumCircuit.z ⟨[⟨"q", 2⟩], []⟩ (.bit ⟨⟨"q", 2⟩, 1⟩) =
      .ok (.single (Legacy.ZGate ⟨⟨"q", 2⟩, 1⟩),
           ⟨[⟨"q", 2⟩], [] ++ [Legacy.ZGate ⟨⟨"q", 2⟩, 1⟩]⟩) :=
  C9_z_register_applies_each ⟨[⟨"q", 2⟩], []⟩ ⟨"q", 2⟩ ⟨⟨"q", 2⟩, 1⟩
    (by decide) (by decide)

/-- C10: `iSwapGate.to_matrix` always returns exactly the 4x4 complex
matrix [[1,0,0,0],[0,0,i,0],[0,i,0,0],[0,0,0,1]], whose entries are exact
Gaussian integers (0, 1 and i), independent of any circuit state (the
method reads nothing but the literal array). -/
theorem C10_iswap_to_matrix_exact :
    Modern.iSwapGate.to_matrix =
      [ [⟨1, 0⟩, ⟨0, 0⟩, ⟨0, 0⟩, ⟨0, 0⟩],
        [⟨0, 0⟩, ⟨0, 0⟩, ⟨0, 1⟩, ⟨0, 0⟩],
        [⟨0, 0⟩, ⟨0, 1⟩, ⟨0, 0⟩, ⟨0, 0⟩],
        [⟨0, 0⟩, ⟨0, 0⟩, ⟨0, 0⟩, ⟨1, 0⟩] ] ∧
    Modern.iSwapGate.to_matrix.length = 4 ∧
    Modern.iSwapGate.to_matrix.map List.length = [4, 4, 4, 4] ∧
    (Modern.iSwapGate.to_matrix.map fun row =>
        row.countP fun e => e ≠ Modern.GaussianInt.mk 0 0) = [1, 1, 1, 1] := by
  decide

end Qiskit
